/-
Verification of the device state tracker (`DevicesStateMonitor`) of
`src/applets/devicenotifier/devicestatemonitor_p.cpp`.

The C++ class keeps a hash map `m_devicesStates : QHash<QString, DeviceInfo>`
and reacts to Solid lifecycle signals.  We embed it shallowly:

* the hash map becomes an association list `List (String × DeviceInfo)`
  (operations touch the first entry with the given key, as `QHash` does for
  its unique keys);
* the Qt signal/slot connections become a bookkeeping list of
  `(udi, SignalKind)` pairs, and `removeMonitoringDevice` additionally
  returns the ordered list of `RemoveAction`s it performs, mirroring the statement
  order of the C++ body;
* each handler returns the list of udis for which `stateChanged` was emitted;
* the `Solid::Device` probed at the start of each handler is an input
  (`Device` below), a snapshot of what `Solid::Device(udi)` and its
  `is<T>()` / `as<T>()` calls report at that moment;
* `setIdleState` dereferences `device.as<Solid::StorageAccess>()` without a
  null check in its Checking/Mounting/Unmounting branches; we model that
  partiality with `Option` (`none` = null-pointer dereference, the call does
  not complete);
* `QDateTime::currentDateTimeUtc()` becomes an ambient `now : Nat` passed to
  the operation that reads the clock (only `addMonitoringDevice` does).
-/

import Mathlib

/-- Lifecycle states of a monitored device, from the `State` enum of
`DevicesStateMonitor` (`NotPresent` is the sentinel returned by `getState`
for untracked udis). -/
inductive State where
  | NotPresent
  | Idle
  | Mounting
  | Unmounting
  | Checking
  | Repairing
  | MountDone
  | UnmountDone
  | CheckDone
  | RepairDone
deriving DecidableEq

/-- The subset of `Solid::ErrorType` values the monitor stores; `NoError`
is the success value, the others stand for the distinct failure codes. -/
inductive ErrorType where
  | NoError
  | UnauthorizedOperation
  | DeviceBusy
  | OperationFailed
  | UserCanceled
  | MissingDriver
deriving DecidableEq

/-- The `QVariant` payloads the monitor handles: a default-constructed
(null) variant or a boolean. -/
inductive QVariant where
  | null
  | boolV (b : Bool)
deriving DecidableEq

/-- `QVariant::toBool`: a null variant converts to `false`. -/
def QVariant.toBool : QVariant → Bool
  | .null => false
  | .boolV b => b

/-- Snapshot of a `Solid::StorageAccess` interface pointer. -/
structure StorageAccessIface where
  canCheck : Bool
  canRepair : Bool
  isAccessible : Bool
deriving DecidableEq

/-- Snapshot of a `Solid::StorageDrive` interface pointer. -/
structure StorageDriveIface where
  isRemovable : Bool
  isHotpluggable : Bool
deriving DecidableEq

/-- Snapshot of `Solid::Device(udi)` as probed at the start of a handler:
which interfaces `is<T>()` reports and what the corresponding `as<T>()` /
`getAncestorAs<T>` pointers answer (`none` = null pointer). -/
structure Device where
  isValid : Bool
  isOpticalDisc : Bool
  ancestorOpticalDrive : Bool
  isStorageVolume : Bool
  storageAccess : Option StorageAccessIface
  storageDrive : Option StorageDriveIface
  ancestorStorageDrive : Option StorageDriveIface
  isCamera : Bool
  isPortableMediaPlayer : Bool
deriving DecidableEq

/-- The per-device record (`DeviceInfo` struct in the C++). -/
structure DeviceInfo where
  isBusy : Bool
  isRemovable : Bool
  isMounted : Bool
  isChecked : Bool
  needRepair : Bool
  operationResult : ErrorType
  operationInfo : QVariant
  state : State
  deviceTimeStamp : Nat
deriving DecidableEq

/-- The Solid signals the monitor connects to. -/
inductive SignalKind where
  | ejectRequested
  | ejectDone
  | accessibilityChanged
  | setupRequested
  | setupDone
  | teardownRequested
  | teardownDone
  | checkRequested
  | checkDone
  | repairRequested
  | repairDone
deriving DecidableEq

/-- Signals that live on the `Solid::StorageAccess` object (everything but
the two `Solid::OpticalDrive` eject signals). -/
def isAccessSignal : SignalKind → Bool
  | .ejectRequested => false
  | .ejectDone => false
  | _ => true

/-- The observable steps `removeMonitoringDevice` performs, in order. -/
inductive RemoveAction where
  | eraseRecord (udi : String)
  | disconnectAccess (udi : String)
  | disconnectDrive (udi : String)
  | emitStateChanged (udi : String)
deriving DecidableEq

/-- The monitor: the record map plus the live signal/slot connections. -/
structure DevicesStateMonitor where
  devicesStates : List (String × DeviceInfo)
  connections : List (String × SignalKind)
deriving DecidableEq

/-- The freshly constructed monitor (empty map, no connections). -/
def emptyMonitor : DevicesStateMonitor := ⟨[], []⟩

/-- `QHash::constFind` on the association list: the value stored at the
first entry with the given key. -/
def lookupDev : List (String × DeviceInfo) → String → Option DeviceInfo
  | [], _ => none
  | (k, v) :: rest, udi => if k = udi then some v else lookupDev rest udi

/-- Mutate the record stored under `udi` (the first entry), if any. -/
def updateDev (f : DeviceInfo → DeviceInfo) :
    List (String × DeviceInfo) → String → List (String × DeviceInfo)
  | [], _ => []
  | (k, v) :: rest, udi =>
      if k = udi then (k, f v) :: rest else (k, v) :: updateDev f rest udi

/-- `QHash::erase` of the entry found for `udi` (the first one). -/
def eraseDev : List (String × DeviceInfo) → String → List (String × DeviceInfo)
  | [], _ => []
  | (k, v) :: rest, udi => if k = udi then rest else (k, v) :: eraseDev rest udi

/-- The `DeviceInfo` aggregate literal built at the top of
`addMonitoringDevice`, stamped with the current UTC time. -/
def defaultInfoAt (now : Nat) : DeviceInfo :=
  { isBusy := false
    isRemovable := false
    isMounted := false
    isChecked := false
    needRepair := false
    operationResult := .NoError
    operationInfo := .null
    state := .Idle
    deviceTimeStamp := now }

/-- The connections made on the `StorageAccess` object of `udi`: the five
unconditional ones, plus check/repair pairs guarded by `canCheck` /
`canRepair`. -/
def accessConnects (a : StorageAccessIface) (udi : String) :
    List (String × SignalKind) :=
  [(udi, .accessibilityChanged), (udi, .setupRequested), (udi, .setupDone),
    (udi, .teardownRequested), (udi, .teardownDone)]
  ++ (if a.canCheck then [(udi, .checkRequested), (udi, .checkDone)] else [])
  ++ (if a.canRepair then [(udi, .repairRequested), (udi, .repairDone)] else [])

/-- `DevicesStateMonitor::addMonitoringDevice`.  Mirrors the C++ body:
early return when already tracked; emplace the default record; connect the
optical-drive signals, then the storage-access signals (also reading the
initial accessibility); then the three overwriting `isRemovable`
derivations (own storage drive, ancestor storage drive, camera, portable
media player); finally emit `stateChanged(udi)`.  Returns the new monitor
and the emitted udis. -/
def addMonitoringDevice (dev : Device) (now : Nat) (udi : String)
    (m : DevicesStateMonitor) : DevicesStateMonitor × List String :=
  match lookupDev m.devicesStates udi with
  | some _ => (m, [])
  | none =>
    let conns1 : List (String × SignalKind) :=
      if dev.isOpticalDisc && dev.ancestorOpticalDrive then
        [(udi, .ejectRequested), (udi, .ejectDone)]
      else []
    let connsMounted : List (String × SignalKind) × Bool :=
      if dev.isStorageVolume then
        match dev.storageAccess with
        | some a => (accessConnects a udi, a.isAccessible)
        | none => ([], false)
      else ([], false)
    let rem1 : Bool :=
      match dev.storageDrive with
      | some sd => sd.isRemovable
      | none => false
    let rem2 : Bool :=
      match dev.ancestorStorageDrive with
      | some ad => ad.isRemovable || ad.isHotpluggable
      | none => rem1
    let rem3 : Bool := if dev.isCamera then true else rem2
    let rem4 : Bool := if dev.isPortableMediaPlayer then true else rem3
    let info : DeviceInfo :=
      { defaultInfoAt now with isMounted := connsMounted.2, isRemovable := rem4 }
    (⟨(udi, info) :: m.devicesStates, m.connections ++ conns1 ++ connsMounted.1⟩,
      [udi])

/-- `DevicesStateMonitor::removeMonitoringDevice`.  Mirrors the C++ body in
statement order: if tracked, first `erase` the record, then `disconnect`
the storage-access object (when the device currently reports a storage
volume with an access interface) or else the ancestor optical drive (when
it reports an optical disc with one), then emit `stateChanged(udi)`.
Returns the new monitor and the ordered list of performed actions. -/
def removeMonitoringDevice (dev : Device) (udi : String)
    (m : DevicesStateMonitor) : DevicesStateMonitor × List RemoveAction :=
  match lookupDev m.devicesStates udi with
  | none => (m, [])
  | some _ =>
    let states1 := eraseDev m.devicesStates udi
    if dev.isStorageVolume then
      match dev.storageAccess with
      | some _ =>
          (⟨states1, m.connections.filter fun c => !(c.1 == udi && isAccessSignal c.2)⟩,
            [.eraseRecord udi, .disconnectAccess udi, .emitStateChanged udi])
      | none => (⟨states1, m.connections⟩, [.eraseRecord udi, .emitStateChanged udi])
    else if dev.isOpticalDisc && dev.ancestorOpticalDrive then
      (⟨states1, m.connections.filter fun c => !(c.1 == udi && !isAccessSignal c.2)⟩,
        [.eraseRecord udi, .disconnectDrive udi, .emitStateChanged udi])
    else
      (⟨states1, m.connections⟩, [.eraseRecord udi, .emitStateChanged udi])

/-- The udis for which a `stateChanged` emission appears in an action list. -/
def emittedUdis (acts : List RemoveAction) : List String :=
  acts.filterMap fun a =>
    match a with
    | .emitStateChanged u => some u
    | _ => none

/-- `DevicesStateMonitor::setMountingState`. -/
def setMountingState (udi : String) (m : DevicesStateMonitor) :
    DevicesStateMonitor × List String :=
  match lookupDev m.devicesStates udi with
  | none => (m, [])
  | some _ =>
      (⟨updateDev (fun it => { it with isBusy := true, state := .Mounting })
          m.devicesStates udi, m.connections⟩, [udi])

/-- `DevicesStateMonitor::setUnmountingState`. -/
def setUnmountingState (udi : String) (m : DevicesStateMonitor) :
    DevicesStateMonitor × List String :=
  match lookupDev m.devicesStates udi with
  | none => (m, [])
  | some _ =>
      (⟨updateDev (fun it => { it with isBusy := true, state := .Unmounting })
          m.devicesStates udi, m.connections⟩, [udi])

/-- `DevicesStateMonitor::setCheckingState`. -/
def setCheckingState (udi : String) (m : DevicesStateMonitor) :
    DevicesStateMonitor × List String :=
  match lookupDev m.devicesStates udi with
  | none => (m, [])
  | some _ =>
      (⟨updateDev (fun it => { it with isBusy := true, state := .Checking })
          m.devicesStates udi, m.connections⟩, [udi])

/-- `DevicesStateMonitor::setRepairingState`. -/
def setRepairingState (udi : String) (m : DevicesStateMonitor) :
    DevicesStateMonitor × List String :=
  match lookupDev m.devicesStates udi with
  | none => (m, [])
  | some _ =>
      (⟨updateDev (fun it => { it with isBusy := true, state := .Repairing })
          m.devicesStates udi, m.connections⟩, [udi])

/-- `DevicesStateMonitor::setAccessibilityState`: mutate and emit only when
the stored `isMounted` differs from the reported accessibility. -/
def setAccessibilityState (isAccessible : Bool) (udi : String)
    (m : DevicesStateMonitor) : DevicesStateMonitor × List String :=
  match lookupDev m.devicesStates udi with
  | none => (m, [])
  | some it =>
      if it.isMounted = isAccessible then (m, [])
      else
        (⟨updateDev (fun d => { d with isMounted := isAccessible })
            m.devicesStates udi, m.connections⟩, [udi])

/-- The record `setIdleState` stores, or `none` when the C++ dereferences
the null `as<Solid::StorageAccess>()` pointer.  In the `Checking` branch
the C++ computes `(result == NoError) ? !info.toBool() && access->canRepair()
: false`, so `canRepair` (the dereference) is only evaluated when the result
is success and `info.toBool()` is false. -/
def idleRecord (dev : Device) (result : ErrorType) (info : QVariant)
    (it : DeviceInfo) : Option DeviceInfo :=
  let base : DeviceInfo :=
    { it with isBusy := false, operationResult := result, operationInfo := info }
  match it.state with
  | .Checking =>
      (if result = ErrorType.NoError then
        (if info.toBool = false then
          (dev.storageAccess).map (fun a => a.canRepair)
        else some false)
      else some false).map fun nr =>
        { base with isChecked := true, needRepair := nr, state := .CheckDone }
  | .Repairing =>
      some { base with
        needRepair := if result = ErrorType.NoError then false else true,
        state := .RepairDone }
  | .Mounting =>
      (dev.storageAccess).map fun a =>
        { base with isMounted := a.isAccessible, state := .MountDone }
  | .Unmounting =>
      (dev.storageAccess).map fun a =>
        { base with isMounted := a.isAccessible, state := .UnmountDone }
  | _ => some { base with state := .Idle }

/-- `DevicesStateMonitor::setIdleState`: early (emission-free) return when
the device is no longer valid or not tracked; otherwise store the record
computed by `idleRecord` and emit.  `none` models the null-pointer
dereference (the call does not complete). -/
def setIdleState (dev : Device) (result : ErrorType) (info : QVariant)
    (udi : String) (m : DevicesStateMonitor) :
    Option (DevicesStateMonitor × List String) :=
  if dev.isValid = false then some (m, [])
  else
    match lookupDev m.devicesStates udi with
    | none => some (m, [])
    | some it =>
        (idleRecord dev result info it).map fun r =>
          (⟨updateDev (fun _ => r) m.devicesStates udi, m.connections⟩, [udi])

/-- `DevicesStateMonitor::isBusy`. -/
def isBusy (m : DevicesStateMonitor) (udi : String) : Bool :=
  match lookupDev m.devicesStates udi with
  | some it => it.isBusy
  | none => false

/-- `DevicesStateMonitor::isRemovable`. -/
def isRemovable (m : DevicesStateMonitor) (udi : String) : Bool :=
  match lookupDev m.devicesStates udi with
  | some it => it.isRemovable
  | none => false

/-- `DevicesStateMonitor::isMounted`. -/
def isMounted (m : DevicesStateMonitor) (udi : String) : Bool :=
  match lookupDev m.devicesStates udi with
  | some it => it.isMounted
  | none => false

/-- `DevicesStateMonitor::isChecked`. -/
def isChecked (m : DevicesStateMonitor) (udi : String) : Bool :=
  match lookupDev m.devicesStates udi with
  | some it => it.isChecked
  | none => false

/-- `DevicesStateMonitor::needRepair`. -/
def needRepair (m : DevicesStateMonitor) (udi : String) : Bool :=
  match lookupDev m.devicesStates udi with
  | some it => it.needRepair
  | none => false

/-- `DevicesStateMonitor::getDeviceTimeStamp`; `none` is the invalid
`QDateTime{}` returned for untracked udis. -/
def getDeviceTimeStamp (m : DevicesStateMonitor) (udi : String) : Option Nat :=
  match lookupDev m.devicesStates udi with
  | some it => some it.deviceTimeStamp
  | none => none

/-- `DevicesStateMonitor::getState`. -/
def getState (m : DevicesStateMonitor) (udi : String) : State :=
  match lookupDev m.devicesStates udi with
  | some it => it.state
  | none => .NotPresent

/-- `DevicesStateMonitor::getOperationResult`. -/
def getOperationResult (m : DevicesStateMonitor) (udi : String) : ErrorType :=
  match lookupDev m.devicesStates udi with
  | some it => it.operationResult
  | none => .NoError

/-- `DevicesStateMonitor::getOperationInfo`. -/
def getOperationInfo (m : DevicesStateMonitor) (udi : String) : QVariant :=
  match lookupDev m.devicesStates udi with
  | some it => it.operationInfo
  | none => .null

/-- One inbound event, carrying the `Solid::Device` snapshot the handler
will probe where the handler probes one. -/
inductive Event where
  | register (dev : Device) (udi : String)
  | unregister (dev : Device) (udi : String)
  | mountRequested (udi : String)
  | unmountRequested (udi : String)
  | checkRequested (udi : String)
  | repairRequested (udi : String)
  | operationDone (dev : Device) (result : ErrorType) (info : QVariant) (udi : String)
  | accessibilityChanged (b : Bool) (udi : String)
deriving DecidableEq

/-- Whether an event is a lifecycle event (anything but registration and
deregistration). -/
def Event.isLifecycle : Event → Bool
  | .register _ _ => false
  | .unregister _ _ => false
  | _ => true

/-- Dispatch one event at wall-clock time `now`; `none` when the handler
does not complete (null-pointer dereference in `setIdleState`). -/
def stepAt (now : Nat) (m : DevicesStateMonitor) :
    Event → Option (DevicesStateMonitor × List String)
  | .register dev udi => some (addMonitoringDevice dev now udi m)
  | .unregister dev udi =>
      let r := removeMonitoringDevice dev udi m
      some (r.1, emittedUdis r.2)
  | .mountRequested udi => some (setMountingState udi m)
  | .unmountRequested udi => some (setUnmountingState udi m)
  | .checkRequested udi => some (setCheckingState udi m)
  | .repairRequested udi => some (setRepairingState udi m)
  | .operationDone dev result info udi => setIdleState dev result info udi m
  | .accessibilityChanged b udi => some (setAccessibilityState b udi m)

/-- Run a timed event sequence from the given monitor, stopping with `none`
if some handler does not complete. -/
def runFrom (m : DevicesStateMonitor) :
    List (Nat × Event) → Option DevicesStateMonitor
  | [] => some m
  | (now, e) :: rest =>
      match stepAt now m e with
      | none => none
      | some r => runFrom r.1 rest

/-- Run a timed event sequence from the freshly constructed monitor. -/
def runTimed (evs : List (Nat × Event)) : Option DevicesStateMonitor :=
  runFrom emptyMonitor evs

/-- The states in which the record is considered busy. -/
def State.isBusyState : State → Bool
  | .Mounting => true
  | .Unmounting => true
  | .Checking => true
  | .Repairing => true
  | _ => false

/-- A record satisfying the busy/state coupling. -/
def goodInfo (it : DeviceInfo) : Prop := it.isBusy = it.state.isBusyState

/-- All records of the map satisfy the busy/state coupling. -/
def BusyInvL (l : List (String × DeviceInfo)) : Prop :=
  ∀ p ∈ l, goodInfo p.2

theorem lookupDev_updateDev (f : DeviceInfo → DeviceInfo)
    (l : List (String × DeviceInfo)) (k u : String) :
    lookupDev (updateDev f l k) u =
      if k = u then (lookupDev l u).map f else lookupDev l u := by
  induction l with
  | nil => simp [updateDev, lookupDev]
  | cons hd tl ih =>
      obtain ⟨hk, hv⟩ := hd
      by_cases h1 : hk = k
      · subst h1
        by_cases h2 : hk = u
        · subst h2
          simp [updateDev, lookupDev]
        · simp [updateDev, lookupDev, h2]
      · by_cases h2 : hk = u
        · subst h2
          have h3 : ¬(k = hk) := fun h => h1 h.symm
          simp [updateDev, lookupDev, h1, h3]
        · simp [updateDev, lookupDev, h1, h2, ih]

theorem mem_eraseDev {l : List (String × DeviceInfo)} {u : String}
    {p : String × DeviceInfo} (h : p ∈ eraseDev l u) : p ∈ l := by
  induction l with
  | nil => simp [eraseDev] at h
  | cons hd tl ih =>
      obtain ⟨hk, hv⟩ := hd
      by_cases h1 : hk = u
      · rw [eraseDev, if_pos h1] at h
        exact List.mem_cons_of_mem _ h
      · rw [eraseDev, if_neg h1] at h
        rcases List.mem_cons.1 h with h2 | h2
        · exact List.mem_cons.2 (Or.inl h2)
        · exact List.mem_cons_of_mem _ (ih h2)

theorem mem_updateDev {f : DeviceInfo → DeviceInfo}
    {l : List (String × DeviceInfo)} {k : String} {p : String × DeviceInfo}
    (h : p ∈ updateDev f l k) : p ∈ l ∨ ∃ v, (k, v) ∈ l ∧ p = (k, f v) := by
  induction l with
  | nil => simp [updateDev] at h
  | cons hd tl ih =>
      obtain ⟨hk, hv⟩ := hd
      by_cases h1 : hk = k
      · subst h1
        rw [updateDev, if_pos rfl] at h
        rcases List.mem_cons.1 h with h2 | h2
        · exact Or.inr ⟨hv, List.mem_cons_self _ _, h2⟩
        · exact Or.inl (List.mem_cons_of_mem _ h2)
      · rw [updateDev, if_neg h1] at h
        rcases List.mem_cons.1 h with h2 | h2
        · exact Or.inl (List.mem_cons.2 (Or.inl h2))
        · rcases ih h2 with h3 | ⟨v, hv2, hp⟩
          · exact Or.inl (List.mem_cons_of_mem _ h3)
          · exact Or.inr ⟨v, List.mem_cons_of_mem _ hv2, hp⟩

theorem lookupDev_mem {l : List (String × DeviceInfo)} {udi : String}
    {it : DeviceInfo} (h : lookupDev l udi = some it) : (udi, it) ∈ l := by
  induction l with
  | nil => simp [lookupDev] at h
  | cons hd tl ih =>
      obtain ⟨hk, hv⟩ := hd
      by_cases h1 : hk = udi
      · subst h1
        rw [lookupDev, if_pos rfl] at h
        cases h
        exact List.mem_cons_self _ _
      · rw [lookupDev, if_neg h1] at h
        exact List.mem_cons_of_mem _ (ih h)

/-- A valid device exposing no interface at all (the capability probe
reports nothing). -/
def devNone : Device :=
  ⟨true, false, false, false, none, none, none, false, false⟩

/-- A device that is no longer valid (detached). -/
def devInvalid : Device :=
  ⟨false, false, false, false, none, none, none, false, false⟩

/-- A storage access that can check and repair and is accessible. -/
def accessFull : StorageAccessIface := ⟨true, true, true⟩

/-- A valid storage volume with a full-featured access interface, below a
removable drive. -/
def devVol : Device :=
  ⟨true, false, false, true, some accessFull, none, some ⟨true, false⟩, false, false⟩

/-- A valid storage volume whose `as<Solid::StorageAccess>()` is null. -/
def devNoAccess : Device :=
  ⟨true, false, false, true, none, none, none, false, false⟩

/-- A monitor tracking the single idle device "u". -/
def mOne : DevicesStateMonitor := ⟨[("u", defaultInfoAt 0)], []⟩

/-- C6: registerDevice is idempotent: adding an already-tracked udi is a
no-op — the record is not reset, nothing changes, and no notification is
emitted — so registering the same udi twice is observably equivalent to
registering it once. -/
theorem addMonitoringDevice_idempotent (dev dev2 : Device) (n n2 : Nat)
    (udi : String) (m : DevicesStateMonitor) (it : DeviceInfo)
    (h : lookupDev m.devicesStates udi = some it) :
    addMonitoringDevice dev n udi m = (m, [])
    ∧ ∀ m0 : DevicesStateMonitor,
        addMonitoringDevice dev2 n2 udi (addMonitoringDevice dev n udi m0).1 =
          ((addMonitoringDevice dev n udi m0).1, []) := by
  constructor
  · simp [addMonitoringDevice, h]
  · intro m0
    cases h0 : lookupDev m0.devicesStates udi with
    | some v => simp [addMonitoringDevice, h0]
    | none => simp [addMonitoringDevice, h0, lookupDev]

/-- Witness for C6 at a concrete tracked monitor and from the empty
monitor. -/
theorem addMonitoringDevice_idempotent_w :
    addMonitoringDevice devNone 1 "u" mOne = (mOne, [])
    ∧ addMonitoringDevice devNone 2 "u"
        (addMonitoringDevice devNone 1 "u" emptyMonitor).1 =
      ((addMonitoringDevice devNone 1 "u" emptyMonitor).1, []) := by
  have h := addMonitoringDevice_idempotent devNone devNone 1 2 "u" mOne
    (defaultInfoAt 0) (by decide)
  exact ⟨h.1, h.2 emptyMonitor⟩

/-- C5: an operation-done event for a device that is no longer valid is a
silent no-op, and every lifecycle event delivered for an untracked udi is a
silent no-op: no record changes, no notification. -/
theorem stale_events_noop (dev : Device) (result : ErrorType) (info : QVariant)
    (b : Bool) (udi : String) (m : DevicesStateMonitor) :
    (dev.isValid = false → setIdleState dev result info udi m = some (m, []))
    ∧ (lookupDev m.devicesStates udi = none →
        setMountingState udi m = (m, [])
        ∧ setUnmountingState udi m = (m, [])
        ∧ setCheckingState udi m = (m, [])
        ∧ setRepairingState udi m = (m, [])
        ∧ setIdleState dev result info udi m = some (m, [])
        ∧ setAccessibilityState b udi m = (m, [])) := by
  constructor
  · intro h
    simp [setIdleState, h]
  · intro h
    refine ⟨?_, ?_, ?_, ?_, ?_, ?_⟩ <;>
      simp [setMountingState, setUnmountingState, setCheckingState,
        setRepairingState, setIdleState, setAccessibilityState, h]

/-- Witness for C5: an invalid device mid-operation and an untracked udi,
both at concrete inputs. -/
theorem stale_events_noop_w :
    setIdleState devInvalid ErrorType.NoError QVariant.null "u" mOne =
      some (mOne, [])
    ∧ setMountingState "x" mOne = (mOne, [])
    ∧ setIdleState devNone ErrorType.NoError QVariant.null "x" mOne =
        some (mOne, [])
    ∧ setAccessibilityState true "x" mOne = (mOne, []) := by
  have h1 := (stale_events_noop devInvalid ErrorType.NoError QVariant.null
    true "u" mOne).1 (by decide)
  have h2 := (stale_events_noop devNone ErrorType.NoError QVariant.null
    true "x" mOne).2 (by decide)
  exact ⟨h1, h2.1, h2.2.2.2.2.1, h2.2.2.2.2.2⟩

/-- C4: every accepted mutation — registration of a new udi, deregistration
of a tracked udi, a busy transition, a completed operation, or an
accessibility flip — emits exactly one `stateChanged(udi)`; an
accessibility event matching the stored `isMounted` mutates nothing and
emits nothing. -/
theorem stateChanged_once (dev : Device) (result : ErrorType) (info : QVariant)
    (b : Bool) (now : Nat) (udi : String) (m : DevicesStateMonitor) :
    (lookupDev m.devicesStates udi = none →
        (addMonitoringDevice dev now udi m).2 = [udi])
    ∧ (∀ it, lookupDev m.devicesStates udi = some it →
        emittedUdis (removeMonitoringDevice dev udi m).2 = [udi]
        ∧ (setMountingState udi m).2 = [udi]
        ∧ (setUnmountingState udi m).2 = [udi]
        ∧ (setCheckingState udi m).2 = [udi]
        ∧ (setRepairingState udi m).2 = [udi])
    ∧ (∀ it m2 out, lookupDev m.devicesStates udi = some it →
        dev.isValid = true →
        setIdleState dev result info udi m = some (m2, out) → out = [udi])
    ∧ (∀ it, lookupDev m.devicesStates udi = some it → ¬(it.isMounted = b) →
        setAccessibilityState b udi m =
          (⟨updateDev (fun d => { d with isMounted := b }) m.devicesStates udi,
            m.connections⟩, [udi])
        ∧ isMounted (setAccessibilityState b udi m).1 udi = b)
    ∧ (∀ it, lookupDev m.devicesStates udi = some it → it.isMounted = b →
        setAccessibilityState b udi m = (m, [])) := by
  refine ⟨?_, ?_, ?_, ?_, ?_⟩
  · intro h
    simp [addMonitoringDevice, h]
  · intro it h
    refine ⟨?_, ?_, ?_, ?_, ?_⟩
    · cases hsv : dev.isStorageVolume <;> cases hsa : dev.storageAccess <;>
        cases hod : (dev.isOpticalDisc && dev.ancestorOpticalDrive) <;>
        simp [removeMonitoringDevice, h, hsv, hsa, hod, emittedUdis]
    · simp [setMountingState, h]
    · simp [setUnmountingState, h]
    · simp [setCheckingState, h]
    · simp [setRepairingState, h]
  · intro it m2 out h hv heq
    simp only [setIdleState, hv, h] at heq
    cases hr : idleRecord dev result info it <;> rw [hr] at heq <;>
      simp at heq
    exact heq.2.symm
  · intro it h hne
    constructor
    · simp [setAccessibilityState, h, hne]
    · simp [setAccessibilityState, h, hne, isMounted, lookupDev_updateDev]
  · intro it h heq
    simp [setAccessibilityState, h, heq]

/-- A monitor tracking a single mounted idle device "u". -/
def mMounted : DevicesStateMonitor :=
  ⟨[("u", { defaultInfoAt 0 with isMounted := true })], []⟩

/-- Witness for C4: flipping accessibility of a mounted device emits once
and repeating the event emits nothing; registration and deregistration
each emit once. -/
theorem stateChanged_once_w :
    setAccessibilityState false "u" mMounted =
      (⟨updateDev (fun d => { d with isMounted := false })
          mMounted.devicesStates "u", mMounted.connections⟩, ["u"])
    ∧ setAccessibilityState false "u" (setAccessibilityState false "u" mMounted).1 =
        ((setAccessibilityState false "u" mMounted).1, [])
    ∧ (addMonitoringDevice devNone 0 "u" emptyMonitor).2 = ["u"]
    ∧ emittedUdis (removeMonitoringDevice devNone "u" mMounted).2 = ["u"] := by
  refine ⟨?_, ?_, ?_, ?_⟩
  · exact ((stateChanged_once devNone ErrorType.NoError QVariant.null false 0
      "u" mMounted).2.2.2.1 { defaultInfoAt 0 with isMounted := true }
      (by decide) (by decide)).1
  · exact (stateChanged_once devNone ErrorType.NoError QVariant.null false 0
      "u" (setAccessibilityState false "u" mMounted).1).2.2.2.2
      { defaultInfoAt 0 with isMounted := false } (by decide) (by decide)
  · exact (stateChanged_once devNone ErrorType.NoError QVariant.null false 0
      "u" emptyMonitor).1 (by decide)
  · exact ((stateChanged_once devNone ErrorType.NoError QVariant.null false 0
      "u" mMounted).2.1 { defaultInfoAt 0 with isMounted := true }
      (by decide)).1

/-- The record `setIdleState` stores when completing a check. -/
def checkDoneRecord (result : ErrorType) (info : QVariant)
    (it : DeviceInfo) (a : StorageAccessIface) : DeviceInfo :=
  { it with
    isBusy := false
    operationResult := result
    operationInfo := info
    isChecked := true
    needRepair :=
      if result = ErrorType.NoError then !info.toBool && a.canRepair else false
    state := .CheckDone }

theorem idleRecord_checking (dev : Device) (result : ErrorType)
    (info : QVariant) (it : DeviceInfo) (a : StorageAccessIface)
    (h2 : it.state = State.Checking) (h4 : dev.storageAccess = some a) :
    idleRecord dev result info it = some (checkDoneRecord result info it a) := by
  unfold idleRecord checkDoneRecord
  rw [h2]
  by_cases hres : result = ErrorType.NoError
  · subst hres
    cases hinfo : info.toBool <;> simp [hinfo, h4]
  · simp [hres]

/-- C2: a `checkDone(result, info)` delivered while a tracked, still-valid
device with a storage-access interface is `Checking` moves it to
`CheckDone`, clears `isBusy`, sets `isChecked`, and sets `needRepair` to
`!info.toBool && canRepair` on success and to `false` on failure. -/
theorem checkDone_transition (dev : Device) (result : ErrorType)
    (info : QVariant) (udi : String) (m : DevicesStateMonitor)
    (it : DeviceInfo) (a : StorageAccessIface)
    (h1 : lookupDev m.devicesStates udi = some it)
    (h2 : it.state = State.Checking)
    (h3 : dev.isValid = true)
    (h4 : dev.storageAccess = some a) :
    ∃ m2, setIdleState dev result info udi m = some (m2, [udi])
      ∧ getState m2 udi = State.CheckDone
      ∧ isBusy m2 udi = false
      ∧ isChecked m2 udi = true
      ∧ needRepair m2 udi =
          (if result = ErrorType.NoError then !info.toBool && a.canRepair
            else false) := by
  refine ⟨⟨updateDev (fun _ => checkDoneRecord result info it a)
    m.devicesStates udi, m.connections⟩, ?_, ?_, ?_, ?_, ?_⟩
  · simp [setIdleState, h3, h1, idleRecord_checking dev result info it a h2 h4]
  · simp [getState, lookupDev_updateDev, h1, checkDoneRecord]
  · simp [isBusy, lookupDev_updateDev, h1, checkDoneRecord]
  · simp [isChecked, lookupDev_updateDev, h1, checkDoneRecord]
  · simp [needRepair, lookupDev_updateDev, h1, checkDoneRecord]

/-- A monitor tracking the single device "u" in `Checking` state. -/
def mChecking : DevicesStateMonitor :=
  ⟨[("u", { defaultInfoAt 0 with isBusy := true, state := .Checking })], []⟩

/-- Witness for C2: `checkDone(Success, info=true)` yields
`needRepair = false`; `checkDone(Success, info=false)` with
`canRepair = true` yields `needRepair = true`. -/
theorem checkDone_transition_w :
    (∃ m2, setIdleState devVol ErrorType.NoError (QVariant.boolV true) "u"
        mChecking = some (m2, ["u"]) ∧ needRepair m2 "u" = false)
    ∧ (∃ m2, setIdleState devVol ErrorType.NoError (QVariant.boolV false) "u"
        mChecking = some (m2, ["u"]) ∧ needRepair m2 "u" = true) := by
  constructor
  · obtain ⟨m2, ha, _, _, _, hb⟩ := checkDone_transition devVol
      ErrorType.NoError (QVariant.boolV true) "u" mChecking
      { defaultInfoAt 0 with isBusy := true, state := .Checking } accessFull
      (by decide) rfl rfl rfl
    exact ⟨m2, ha, by simpa [QVariant.toBool, accessFull] using hb⟩
  · obtain ⟨m2, ha, _, _, _, hb⟩ := checkDone_transition devVol
      ErrorType.NoError (QVariant.boolV false) "u" mChecking
      { defaultInfoAt 0 with isBusy := true, state := .Checking } accessFull
      (by decide) rfl rfl rfl
    exact ⟨m2, ha, by simpa [QVariant.toBool, accessFull] using hb⟩

theorem removeMonitoringDevice_devicesStates (dev : Device) (udi : String)
    (m : DevicesStateMonitor) (it : DeviceInfo)
    (h : lookupDev m.devicesStates udi = some it) :
    (removeMonitoringDevice dev udi m).1.devicesStates =
      eraseDev m.devicesStates udi := by
  cases hsv : dev.isStorageVolume <;> cases hsa : dev.storageAccess <;>
    cases hod : (dev.isOpticalDisc && dev.ancestorOpticalDrive) <;>
    simp [removeMonitoringDevice, h, hsv, hsa, hod]

/-- The documented defaults every query returns for an absent record. -/
def queriesDefault (m : DevicesStateMonitor) (udi : String) : Prop :=
  isBusy m udi = false ∧ isRemovable m udi = false ∧ isMounted m udi = false
  ∧ isChecked m udi = false ∧ needRepair m udi = false
  ∧ getState m udi = State.NotPresent
  ∧ getOperationResult m udi = ErrorType.NoError
  ∧ getOperationInfo m udi = QVariant.null
  ∧ getDeviceTimeStamp m udi = none

theorem queriesDefault_of_lookup_none {m : DevicesStateMonitor} {udi : String}
    (h : lookupDev m.devicesStates udi = none) : queriesDefault m udi := by
  simp [queriesDefault, isBusy, isRemovable, isMounted, isChecked, needRepair,
    getState, getOperationResult, getOperationInfo, getDeviceTimeStamp, h]

/-- C3: registering then unregistering a previously-untracked udi restores
the record map exactly, every query on that udi returns its documented
default afterwards, and on any monitor where the udi is untracked every
query already returns that default. -/
theorem register_unregister_roundtrip (dev1 dev2 : Device) (now : Nat)
    (udi : String) (m : DevicesStateMonitor)
    (h : lookupDev m.devicesStates udi = none) :
    (removeMonitoringDevice dev2 udi
        (addMonitoringDevice dev1 now udi m).1).1.devicesStates =
      m.devicesStates
    ∧ queriesDefault (removeMonitoringDevice dev2 udi
        (addMonitoringDevice dev1 now udi m).1).1 udi
    ∧ queriesDefault m udi := by
  have hm1 : ∃ info, (addMonitoringDevice dev1 now udi m).1.devicesStates =
      (udi, info) :: m.devicesStates := by
    simp [addMonitoringDevice, h]
  obtain ⟨info, hm1⟩ := hm1
  have hlook1 : lookupDev (addMonitoringDevice dev1 now udi m).1.devicesStates
      udi = some info := by
    rw [hm1]
    simp [lookupDev]
  have hrd := removeMonitoringDevice_devicesStates dev2 udi
    (addMonitoringDevice dev1 now udi m).1 info hlook1
  rw [hm1] at hrd
  simp only [eraseDev, if_pos rfl] at hrd
  refine ⟨hrd, ?_, queriesDefault_of_lookup_none h⟩
  apply queriesDefault_of_lookup_none
  rw [hrd]
  exact h

/-- Witness for C3: a round trip of the storage volume "u" on the fresh
monitor. -/
theorem register_unregister_roundtrip_w :
    (removeMonitoringDevice devVol "u"
        (addMonitoringDevice devVol 7 "u" emptyMonitor).1).1.devicesStates =
      emptyMonitor.devicesStates
    ∧ queriesDefault (removeMonitoringDevice devVol "u"
        (addMonitoringDevice devVol 7 "u" emptyMonitor).1).1 "u"
    ∧ queriesDefault emptyMonitor "u" :=
  register_unregister_roundtrip devVol devVol 7 "u" emptyMonitor (by decide)

/-- Whether a remove action releases a signal/slot connection. -/
def RemoveAction.isDisconnect : RemoveAction → Bool
  | .disconnectAccess _ => true
  | .disconnectDrive _ => true
  | _ => false

/-- Whether a remove action discards the record. -/
def RemoveAction.isErase : RemoveAction → Bool
  | .eraseRecord _ => true
  | _ => false

/-- Scans an action trace; `false` iff some disconnect occurs after a
record has already been discarded (the accumulator remembers whether an
erase was seen). -/
def noDisconnectAfterDiscardGo : Bool → List RemoveAction → Bool
  | _, [] => true
  | seen, a :: rest =>
      if a.isDisconnect && seen then false
      else noDisconnectAfterDiscardGo (seen || a.isErase) rest

/-- The ordering property C7 asserts of a removal trace: subscriptions are
never released after the record has already been discarded. -/
def noDisconnectAfterDiscard (t : List RemoveAction) : Bool :=
  noDisconnectAfterDiscardGo false t

/-- Counterexample to C7: removing the tracked storage volume "u" performs
erase-record first and the disconnect after it, so the claimed
teardown-before-discard order is violated on this concrete input. -/
theorem teardown_order_cex :
    (removeMonitoringDevice devVol "u" mOne).2 =
      [RemoveAction.eraseRecord "u", RemoveAction.disconnectAccess "u",
        RemoveAction.emitStateChanged "u"]
    ∧ noDisconnectAfterDiscard (removeMonitoringDevice devVol "u" mOne).2 =
        false := by
  decide

/-- C7 amended: unregistering a tracked udi first discards the record, then
releases the event subscriptions (only when the device still reports the
corresponding capability: a storage-access disconnect, an optical-drive
disconnect, or none at all), then emits exactly one change notification. -/
theorem remove_discards_then_disconnects (dev : Device) (udi : String)
    (m : DevicesStateMonitor) (it : DeviceInfo)
    (h : lookupDev m.devicesStates udi = some it) :
    ∃ ds, (ds = [] ∨ ds = [RemoveAction.disconnectAccess udi]
        ∨ ds = [RemoveAction.disconnectDrive udi])
      ∧ (removeMonitoringDevice dev udi m).2 =
          RemoveAction.eraseRecord udi ::
            (ds ++ [RemoveAction.emitStateChanged udi])
      ∧ (removeMonitoringDevice dev udi m).1.devicesStates =
          eraseDev m.devicesStates udi
      ∧ emittedUdis (removeMonitoringDevice dev udi m).2 = [udi] := by
  cases hsv : dev.isStorageVolume with
  | true =>
      cases hsa : dev.storageAccess with
      | some a =>
          exact ⟨[RemoveAction.disconnectAccess udi], Or.inr (Or.inl rfl),
            by simp [removeMonitoringDevice, h, hsv, hsa],
            by simp [removeMonitoringDevice, h, hsv, hsa],
            by simp [removeMonitoringDevice, h, hsv, hsa, emittedUdis]⟩
      | none =>
          exact ⟨[], Or.inl rfl,
            by simp [removeMonitoringDevice, h, hsv, hsa],
            by simp [removeMonitoringDevice, h, hsv, hsa],
            by simp [removeMonitoringDevice, h, hsv, hsa, emittedUdis]⟩
  | false =>
      cases hod : (dev.isOpticalDisc && dev.ancestorOpticalDrive) with
      | true =>
          exact ⟨[RemoveAction.disconnectDrive udi], Or.inr (Or.inr rfl),
            by simp [removeMonitoringDevice, h, hsv, hod],
            by simp [removeMonitoringDevice, h, hsv, hod],
            by simp [removeMonitoringDevice, h, hsv, hod, emittedUdis]⟩
      | false =>
          exact ⟨[], Or.inl rfl,
            by simp [removeMonitoringDevice, h, hsv, hod],
            by simp [removeMonitoringDevice, h, hsv, hod],
            by simp [removeMonitoringDevice, h, hsv, hod, emittedUdis]⟩

/-- Witness for the amended C7 at the tracked storage volume "u". -/
theorem remove_discards_then_disconnects_w :
    ∃ ds, (ds = [] ∨ ds = [RemoveAction.disconnectAccess "u"]
        ∨ ds = [RemoveAction.disconnectDrive "u"])
      ∧ (removeMonitoringDevice devVol "u" mOne).2 =
          RemoveAction.eraseRecord "u" ::
            (ds ++ [RemoveAction.emitStateChanged "u"])
      ∧ (removeMonitoringDevice devVol "u" mOne).1.devicesStates =
          eraseDev mOne.devicesStates "u"
      ∧ emittedUdis (removeMonitoringDevice devVol "u" mOne).2 = ["u"] :=
  remove_discards_then_disconnects devVol "u" mOne (defaultInfoAt 0)
    (by decide)

theorem idleRecord_total_of_access (dev : Device) (result : ErrorType)
    (info : QVariant) (it : DeviceInfo) (a : StorageAccessIface)
    (h : dev.storageAccess = some a) :
    ∃ r, idleRecord dev result info it = some r := by
  unfold idleRecord
  cases it.state
  case Checking =>
    by_cases hres : result = ErrorType.NoError
    · subst hres
      cases hinfo : info.toBool <;> simp [h, hinfo]
    · simp [h, hres]
  all_goals simp [h]

/-- Counterexample to C8: an operation-done delivered while the tracked,
still-valid device is `Checking` (success, falsy info) or `Mounting`, with
a null `as<Solid::StorageAccess>()`, dereferences the null pointer — the
call does not complete with default flags. -/
theorem probe_missing_crash_cex :
    setIdleState devNoAccess ErrorType.NoError (QVariant.boolV false) "u"
      mChecking = none
    ∧ setIdleState devNoAccess ErrorType.NoError QVariant.null "u"
        ⟨[("u", { defaultInfoAt 0 with isBusy := true, state := .Mounting })],
          []⟩ = none := by
  decide

/-- C8 amended: no call fails except an operation-done delivered in state
`Mounting`, `Unmounting`, or `Checking`-with-clean-success while the
storage-access interface is absent; in particular operation-done always
completes when that interface is present, or the device is invalid, or the
udi is untracked, and registration with a fully unavailable probe leaves
every capability flag at its default. -/
theorem degrades_gracefully (dev : Device) (result : ErrorType)
    (info : QVariant) (now : Nat) (udi : String) (m : DevicesStateMonitor) :
    ((¬dev.storageAccess = none) ∨ dev.isValid = false
        ∨ lookupDev m.devicesStates udi = none →
      ∃ r, setIdleState dev result info udi m = some r)
    ∧ (dev.storageAccess = none → dev.storageDrive = none →
        dev.ancestorStorageDrive = none → dev.isCamera = false →
        dev.isPortableMediaPlayer = false →
        lookupDev m.devicesStates udi = none →
        isRemovable (addMonitoringDevice dev now udi m).1 udi = false
        ∧ isMounted (addMonitoringDevice dev now udi m).1 udi = false
        ∧ isChecked (addMonitoringDevice dev now udi m).1 udi = false
        ∧ needRepair (addMonitoringDevice dev now udi m).1 udi = false
        ∧ getState (addMonitoringDevice dev now udi m).1 udi = State.Idle) := by
  constructor
  · rintro (ha | hv | hn)
    · cases hsa : dev.storageAccess with
      | none => exact absurd hsa ha
      | some a =>
          by_cases hval : dev.isValid = false
          · exact ⟨(m, []), by simp [setIdleState, hval]⟩
          · cases hl : lookupDev m.devicesStates udi with
            | none => exact ⟨(m, []), by simp [setIdleState, hval, hl]⟩
            | some it =>
                obtain ⟨r, hr⟩ :=
                  idleRecord_total_of_access dev result info it a hsa
                exact ⟨(⟨updateDev (fun _ => r) m.devicesStates udi,
                  m.connections⟩, [udi]),
                  by simp [setIdleState, hval, hl, hr]⟩
    · exact ⟨(m, []), by simp [setIdleState, hv]⟩
    · by_cases hval : dev.isValid = false
      · exact ⟨(m, []), by simp [setIdleState, hval]⟩
      · exact ⟨(m, []), by simp [setIdleState, hval, hn]⟩
  · intro h1 h2 h3 h4 h5 h6
    refine ⟨?_, ?_, ?_, ?_, ?_⟩ <;>
      simp [addMonitoringDevice, h1, h2, h3, h4, h5, h6, isRemovable,
        isMounted, isChecked, needRepair, getState, lookupDev, defaultInfoAt]

/-- Witness for the amended C8: operation-done with the full access
interface completes, and registration of an interface-less device keeps
default flags. -/
theorem degrades_gracefully_w :
    (∃ r, setIdleState devVol ErrorType.NoError QVariant.null "u" mChecking =
        some r)
    ∧ isRemovable (addMonitoringDevice devNone 3 "u" emptyMonitor).1 "u" =
        false
    ∧ getState (addMonitoringDevice devNone 3 "u" emptyMonitor).1 "u" =
        State.Idle := by
  have h1 := (degrades_gracefully devVol ErrorType.NoError QVariant.null 3
    "u" mChecking).1 (Or.inl (by decide))
  have h2 := (degrades_gracefully devNone ErrorType.NoError QVariant.null 3
    "u" emptyMonitor).2 rfl rfl rfl rfl rfl (by decide)
  exact ⟨h1, h2.1, h2.2.2.2.2⟩

theorem keepPair_update (f : DeviceInfo → DeviceInfo)
    (hf : ∀ d, (f d).isRemovable = d.isRemovable
      ∧ (f d).deviceTimeStamp = d.deviceTimeStamp)
    (l : List (String × DeviceInfo)) (k u : String) :
    (lookupDev (updateDev f l k) u).map
        (fun d => (d.isRemovable, d.deviceTimeStamp)) =
      (lookupDev l u).map (fun d => (d.isRemovable, d.deviceTimeStamp)) := by
  rw [lookupDev_updateDev]
  by_cases hk : k = u
  · rw [if_pos hk]
    cases lookupDev l u with
    | none => rfl
    | some d => simp [(hf d).1, (hf d).2]
  · rw [if_neg hk]

theorem keepPair_update_const (r it : DeviceInfo)
    (hr : r.isRemovable = it.isRemovable
      ∧ r.deviceTimeStamp = it.deviceTimeStamp)
    (l : List (String × DeviceInfo)) (k u : String)
    (hit : lookupDev l k = some it) :
    (lookupDev (updateDev (fun _ => r) l k) u).map
        (fun d => (d.isRemovable, d.deviceTimeStamp)) =
      (lookupDev l u).map (fun d => (d.isRemovable, d.deviceTimeStamp)) := by
  rw [lookupDev_updateDev]
  by_cases hk : k = u
  · subst hk
    rw [if_pos rfl, hit]
    simp [hr.1, hr.2]
  · rw [if_neg hk]

theorem idleRecord_keeps (dev : Device) (result : ErrorType) (info : QVariant)
    (it r : DeviceInfo) (h : idleRecord dev result info it = some r) :
    r.isRemovable = it.isRemovable ∧ r.deviceTimeStamp = it.deviceTimeStamp := by
  unfold idleRecord at h
  cases hst : it.state <;> rw [hst] at h
  case Checking =>
    cases hopt : (if result = ErrorType.NoError then
        (if QVariant.toBool info = false then
          (dev.storageAccess).map (fun a => a.canRepair)
        else some false)
      else some false) with
    | none => rw [hopt] at h; simp at h
    | some nr =>
        rw [hopt] at h
        simp only [Option.map_some', Option.some.injEq] at h
        subst h
        exact ⟨rfl, rfl⟩
  case Mounting =>
    cases hsa : dev.storageAccess with
    | none => rw [hsa] at h; simp at h
    | some a =>
        rw [hsa] at h
        simp only [Option.map_some', Option.some.injEq] at h
        subst h
        exact ⟨rfl, rfl⟩
  case Unmounting =>
    cases hsa : dev.storageAccess with
    | none => rw [hsa] at h; simp at h
    | some a =>
        rw [hsa] at h
        simp only [Option.map_some', Option.some.injEq] at h
        subst h
        exact ⟨rfl, rfl⟩
  all_goals
    simp only [Option.some.injEq] at h
  all_goals
    subst h
  all_goals
    exact ⟨rfl, rfl⟩

theorem stepAt_lifecycle_keeps (now : Nat) (m : DevicesStateMonitor)
    (ev : Event) (m2 : DevicesStateMonitor) (out : List String)
    (hl : Event.isLifecycle ev = true)
    (h : stepAt now m ev = some (m2, out)) (u : String) :
    (lookupDev m2.devicesStates u).map
        (fun d => (d.isRemovable, d.deviceTimeStamp)) =
      (lookupDev m.devicesStates u).map
        (fun d => (d.isRemovable, d.deviceTimeStamp)) := by
  cases ev with
  | register dev udi => exact absurd hl (by simp [Event.isLifecycle])
  | unregister dev udi => exact absurd hl (by simp [Event.isLifecycle])
  | mountRequested udi =>
      simp only [stepAt, Option.some.injEq] at h
      unfold setMountingState at h
      cases hl2 : lookupDev m.devicesStates udi with
      | none =>
          simp only [hl2] at h
          injection h with h1 h2
          subst h1
          rfl
      | some it =>
          simp only [hl2] at h
          injection h with h1 h2
          subst h1
          exact keepPair_update
            (fun it => { it with isBusy := true, state := .Mounting })
            (fun d => ⟨rfl, rfl⟩) m.devicesStates udi u
  | unmountRequested udi =>
      simp only [stepAt, Option.some.injEq] at h
      unfold setUnmountingState at h
      cases hl2 : lookupDev m.devicesStates udi with
      | none =>
          simp only [hl2] at h
          injection h with h1 h2
          subst h1
          rfl
      | some it =>
          simp only [hl2] at h
          injection h with h1 h2
          subst h1
          exact keepPair_update
            (fun it => { it with isBusy := true, state := .Unmounting })
            (fun d => ⟨rfl, rfl⟩) m.devicesStates udi u
  | checkRequested udi =>
      simp only [stepAt, Option.some.injEq] at h
      unfold setCheckingState at h
      cases hl2 : lookupDev m.devicesStates udi with
      | none =>
          simp only [hl2] at h
          injection h with h1 h2
          subst h1
          rfl
      | some it =>
          simp only [hl2] at h
          injection h with h1 h2
          subst h1
          exact keepPair_update
            (fun it => { it with isBusy := true, state := .Checking })
            (fun d => ⟨rfl, rfl⟩) m.devicesStates udi u
  | repairRequested udi =>
      simp only [stepAt, Option.some.injEq] at h
      unfold setRepairingState at h
      cases hl2 : lookupDev m.devicesStates udi with
      | none =>
          simp only [hl2] at h
          injection h with h1 h2
          subst h1
          rfl
      | some it =>
          simp only [hl2] at h
          injection h with h1 h2
          subst h1
          exact keepPair_update
            (fun it => { it with isBusy := true, state := .Repairing })
            (fun d => ⟨rfl, rfl⟩) m.devicesStates udi u
  | accessibilityChanged b udi =>
      simp only [stepAt, Option.some.injEq] at h
      unfold setAccessibilityState at h
      cases hl2 : lookupDev m.devicesStates udi with
      | none =>
          simp only [hl2] at h
          injection h with h1 h2
          subst h1
          rfl
      | some it =>
          simp only [hl2] at h
          by_cases hb : it.isMounted = b
          · rw [if_pos hb] at h
            injection h with h1 h2
            subst h1
            rfl
          · rw [if_neg hb] at h
            injection h with h1 h2
            subst h1
            exact keepPair_update
              (fun d => { d with isMounted := b })
              (fun d => ⟨rfl, rfl⟩) m.devicesStates udi u
  | operationDone dev result info udi =>
      simp only [stepAt] at h
      unfold setIdleState at h
      by_cases hv : dev.isValid = false
      · rw [if_pos hv] at h
        simp only [Option.some.injEq] at h
        injection h with h1 h2
        subst h1
        rfl
      · rw [if_neg hv] at h
        cases hl2 : lookupDev m.devicesStates udi with
        | none =>
            simp only [hl2] at h
            simp only [Option.some.injEq] at h
            injection h with h1 h2
            subst h1
            rfl
        | some it =>
            simp only [hl2] at h
            cases hr : idleRecord dev result info it with
            | none => rw [hr] at h; simp at h
            | some r =>
                rw [hr] at h
                simp only [Option.map_some', Option.some.injEq] at h
                injection h with h1 h2
                subst h1
                exact keepPair_update_const r it
                  (idleRecord_keeps dev result info it r hr)
                  m.devicesStates udi u hl2

/-- The monitor after registering "u" at time 0 and delivering
`mountRequested` at time 5. -/
def mC9 : DevicesStateMonitor :=
  ⟨[("u", { defaultInfoAt 0 with isBusy := true, state := .Mounting })], []⟩

/-- Counterexample to C9: after registering "u" at time 0 and delivering a
mount-requested transition at time 5, `getDeviceTimeStamp` still answers
the registration time 0, not the transition time 5 — the timestamp is not
refreshed on transitions. -/
theorem timestamp_not_refreshed_cex :
    runTimed [(0, Event.register devNone "u"),
      (5, Event.mountRequested "u")] = some mC9
    ∧ getDeviceTimeStamp mC9 "u" = some 0
    ∧ ¬getDeviceTimeStamp mC9 "u" = some 5 := by
  decide

/-- C9 amended: `lastUpdated` is stamped once at registration with the
registration time and preserved, not refreshed, by every lifecycle
transition. -/
theorem timestamp_set_at_registration (dev : Device) (now : Nat)
    (udi : String) (m : DevicesStateMonitor)
    (h : lookupDev m.devicesStates udi = none) :
    getDeviceTimeStamp (addMonitoringDevice dev now udi m).1 udi = some now
    ∧ (∀ now2 ev m1 m2 out, Event.isLifecycle ev = true →
        stepAt now2 m1 ev = some (m2, out) → ∀ u,
        (lookupDev m2.devicesStates u).map DeviceInfo.deviceTimeStamp =
          (lookupDev m1.devicesStates u).map DeviceInfo.deviceTimeStamp) := by
  constructor
  · simp [addMonitoringDevice, h, getDeviceTimeStamp, lookupDev, defaultInfoAt]
  · intro now2 ev m1 m2 out hl hstep u
    have hk := stepAt_lifecycle_keeps now2 m1 ev m2 out hl hstep u
    have hk2 := congrArg (Option.map Prod.snd) hk
    simpa [Option.map_map, Function.comp] using hk2

/-- Witness for the amended C9: registration stamps the clock and a
concrete mount-requested step preserves it. -/
theorem timestamp_set_at_registration_w :
    getDeviceTimeStamp (addMonitoringDevice devNone 4 "u" emptyMonitor).1 "u" =
      some 4
    ∧ (lookupDev (setMountingState "u" mOne).1.devicesStates "u").map
        DeviceInfo.deviceTimeStamp =
      (lookupDev mOne.devicesStates "u").map DeviceInfo.deviceTimeStamp := by
  have h := timestamp_set_at_registration devNone 4 "u" emptyMonitor (by decide)
  refine ⟨h.1, ?_⟩
  exact h.2 9 (Event.mountRequested "u") mOne (setMountingState "u" mOne).1
    ["u"] rfl (by decide) "u"

/-- Modelled from the spec: the helper `getAncestorAs<Solid::StorageDrive>`
used by `addMonitoringDevice` is repository code not included under src/.
The spec treats the capability probe as one oracle for the device
("reports which capabilities it has (removable storage, ...)"), so the
ancestor-drive search of a device that is itself a storage drive answers
that same drive.  A probe snapshot is well-formed when its ancestor-drive
answer agrees with its own-drive answer in that case. -/
def deviceProbeWF (dev : Device) : Prop :=
  match dev.storageDrive with
  | none => True
  | some sd => dev.ancestorStorageDrive = some sd

/-- The union-of-conditions removability stated by the spec: a removable or
hotpluggable storage drive (the device's own or its ancestor), a camera, or
a portable media player. -/
def specIsRemovable (dev : Device) : Bool :=
  (match dev.storageDrive with
    | some d => d.isRemovable || d.isHotpluggable
    | none => false)
  || (match dev.ancestorStorageDrive with
    | some d => d.isRemovable || d.isHotpluggable
    | none => false)
  || dev.isCamera || dev.isPortableMediaPlayer

/-- C10: at registration of an untracked udi, `isRemovable` equals the
spec's union of conditions (for well-formed probe snapshots), and it is
immutable afterwards: every lifecycle event preserves every record's
`isRemovable`. -/
theorem isRemovable_union_and_immutable (dev : Device) (now : Nat)
    (udi : String) (m : DevicesStateMonitor)
    (h1 : lookupDev m.devicesStates udi = none)
    (h2 : deviceProbeWF dev) :
    isRemovable (addMonitoringDevice dev now udi m).1 udi = specIsRemovable dev
    ∧ (∀ now2 ev m1 m2 out, Event.isLifecycle ev = true →
        stepAt now2 m1 ev = some (m2, out) → ∀ u,
        (lookupDev m2.devicesStates u).map DeviceInfo.isRemovable =
          (lookupDev m1.devicesStates u).map DeviceInfo.isRemovable) := by
  constructor
  · cases hsd : dev.storageDrive with
    | none =>
        cases had : dev.ancestorStorageDrive with
        | none =>
            simp [addMonitoringDevice, h1, isRemovable, lookupDev,
              specIsRemovable, hsd, had]
            cases dev.isCamera <;> cases dev.isPortableMediaPlayer <;> simp
        | some ad =>
            simp [addMonitoringDevice, h1, isRemovable, lookupDev,
              specIsRemovable, hsd, had]
            cases dev.isCamera <;> cases dev.isPortableMediaPlayer <;>
              cases ad.isRemovable <;> cases ad.isHotpluggable <;> simp
    | some sd =>
        have had : dev.ancestorStorageDrive = some sd := by
          unfold deviceProbeWF at h2
          rw [hsd] at h2
          exact h2
        simp [addMonitoringDevice, h1, isRemovable, lookupDev,
          specIsRemovable, hsd, had]
        cases dev.isCamera <;> cases dev.isPortableMediaPlayer <;>
          cases sd.isRemovable <;> cases sd.isHotpluggable <;> simp
  · intro now2 ev m1 m2 out hl hstep u
    have hk := stepAt_lifecycle_keeps now2 m1 ev m2 out hl hstep u
    have hk2 := congrArg (Option.map Prod.fst) hk
    simpa [Option.map_map, Function.comp] using hk2

/-- Witness for C10 at the storage volume below a removable drive. -/
theorem isRemovable_union_and_immutable_w :
    isRemovable (addMonitoringDevice devVol 0 "u" emptyMonitor).1 "u" =
      specIsRemovable devVol
    ∧ (lookupDev (setMountingState "u" mOne).1.devicesStates "u").map
        DeviceInfo.isRemovable =
      (lookupDev mOne.devicesStates "u").map DeviceInfo.isRemovable := by
  have h := isRemovable_union_and_immutable devVol 0 "u" emptyMonitor
    (by decide) trivial
  refine ⟨h.1, ?_⟩
  exact h.2 9 (Event.mountRequested "u") mOne (setMountingState "u" mOne).1
    ["u"] rfl (by decide) "u"

theorem busyInvL_updateDev {l : List (String × DeviceInfo)}
    (hinv : BusyInvL l) (f : DeviceInfo → DeviceInfo)
    (hf : ∀ d, goodInfo d → goodInfo (f d)) (k : String) :
    BusyInvL (updateDev f l k) := by
  intro p hp
  rcases mem_updateDev hp with h | ⟨v, hv, rfl⟩
  · exact hinv p h
  · exact hf v (hinv (k, v) hv)

theorem idleRecord_good (dev : Device) (result : ErrorType) (info : QVariant)
    (it r : DeviceInfo) (h : idleRecord dev result info it = some r) :
    goodInfo r := by
  unfold idleRecord at h
  cases hst : it.state <;> rw [hst] at h
  case Checking =>
    cases hopt : (if result = ErrorType.NoError then
        (if QVariant.toBool info = false then
          (dev.storageAccess).map (fun a => a.canRepair)
        else some false)
      else some false) with
    | none => rw [hopt] at h; simp at h
    | some nr =>
        rw [hopt] at h
        simp only [Option.map_some', Option.some.injEq] at h
        subst h
        rfl
  case Mounting =>
    cases hsa : dev.storageAccess with
    | none => rw [hsa] at h; simp at h
    | some a =>
        rw [hsa] at h
        simp only [Option.map_some', Option.some.injEq] at h
        subst h
        rfl
  case Unmounting =>
    cases hsa : dev.storageAccess with
    | none => rw [hsa] at h; simp at h
    | some a =>
        rw [hsa] at h
        simp only [Option.map_some', Option.some.injEq] at h
        subst h
        rfl
  all_goals
    simp only [Option.some.injEq] at h
  all_goals
    subst h
  all_goals
    rfl

theorem stepAt_busyInv (now : Nat) (m : DevicesStateMonitor) (ev : Event)
    (m2 : DevicesStateMonitor) (out : List String)
    (h : stepAt now m ev = some (m2, out))
    (hinv : BusyInvL m.devicesStates) : BusyInvL m2.devicesStates := by
  cases ev with
  | register dev udi =>
      simp only [stepAt, Option.some.injEq] at h
      unfold addMonitoringDevice at h
      cases hl : lookupDev m.devicesStates udi with
      | some it =>
          simp only [hl] at h
          injection h with h1 h2
          subst h1
          exact hinv
      | none =>
          simp only [hl] at h
          injection h with h1 h2
          subst h1
          intro p hp
          rcases List.mem_cons.1 hp with h3 | h3
          · subst h3
            rfl
          · exact hinv p h3
  | unregister dev udi =>
      simp only [stepAt, Option.some.injEq] at h
      injection h with h1 h2
      subst h1
      cases hl : lookupDev m.devicesStates udi with
      | none =>
          have h3 : (removeMonitoringDevice dev udi m).1 = m := by
            simp [removeMonitoringDevice, hl]
          rw [h3]
          exact hinv
      | some it =>
          rw [removeMonitoringDevice_devicesStates dev udi m it hl]
          intro p hp
          exact hinv p (mem_eraseDev hp)
  | mountRequested udi =>
      simp only [stepAt, Option.some.injEq] at h
      unfold setMountingState at h
      cases hl : lookupDev m.devicesStates udi with
      | none =>
          simp only [hl] at h
          injection h with h1 h2
          subst h1
          exact hinv
      | some it =>
          simp only [hl] at h
          injection h with h1 h2
          subst h1
          exact busyInvL_updateDev hinv
            (fun it => { it with isBusy := true, state := .Mounting })
            (fun d _ => rfl) udi
  | unmountRequested udi =>
      simp only [stepAt, Option.some.injEq] at h
      unfold setUnmountingState at h
      cases hl : lookupDev m.devicesStates udi with
      | none =>
          simp only [hl] at h
          injection h with h1 h2
          subst h1
          exact hinv
      | some it =>
          simp only [hl] at h
          injection h with h1 h2
          subst h1
          exact busyInvL_updateDev hinv
            (fun it => { it with isBusy := true, state := .Unmounting })
            (fun d _ => rfl) udi
  | checkRequested udi =>
      simp only [stepAt, Option.some.injEq] at h
      unfold setCheckingState at h
      cases hl : lookupDev m.devicesStates udi with
      | none =>
          simp only [hl] at h
          injection h with h1 h2
          subst h1
          exact hinv
      | some it =>
          simp only [hl] at h
          injection h with h1 h2
          subst h1
          exact busyInvL_updateDev hinv
            (fun it => { it with isBusy := true, state := .Checking })
            (fun d _ => rfl) udi
  | repairRequested udi =>
      simp only [stepAt, Option.some.injEq] at h
      unfold setRepairingState at h
      cases hl : lookupDev m.devicesStates udi with
      | none =>
          simp only [hl] at h
          injection h with h1 h2
          subst h1
          exact hinv
      | some it =>
          simp only [hl] at h
          injection h with h1 h2
          subst h1
          exact busyInvL_updateDev hinv
            (fun it => { it with isBusy := true, state := .Repairing })
            (fun d _ => rfl) udi
  | accessibilityChanged b udi =>
      simp only [stepAt, Option.some.injEq] at h
      unfold setAccessibilityState at h
      cases hl : lookupDev m.devicesStates udi with
      | none =>
          simp only [hl] at h
          injection h with h1 h2
          subst h1
          exact hinv
      | some it =>
          simp only [hl] at h
          by_cases hb : it.isMounted = b
          · rw [if_pos hb] at h
            injection h with h1 h2
            subst h1
            exact hinv
          · rw [if_neg hb] at h
            injection h with h1 h2
            subst h1
            exact busyInvL_updateDev hinv
              (fun d => { d with isMounted := b })
              (fun d hd => hd) udi
  | operationDone dev result info udi =>
      simp only [stepAt] at h
      unfold setIdleState at h
      by_cases hv : dev.isValid = false
      · rw [if_pos hv] at h
        simp only [Option.some.injEq] at h
        injection h with h1 h2
        subst h1
        exact hinv
      · rw [if_neg hv] at h
        cases hl : lookupDev m.devicesStates udi with
        | none =>
            simp only [hl, Option.some.injEq] at h
            injection h with h1 h2
            subst h1
            exact hinv
        | some it =>
            simp only [hl] at h
            cases hr : idleRecord dev result info it with
            | none => rw [hr] at h; simp at h
            | some r =>
                rw [hr] at h
                simp only [Option.map_some', Option.some.injEq] at h
                injection h with h1 h2
                subst h1
                exact busyInvL_updateDev hinv (fun _ => r)
                  (fun d _ => idleRecord_good dev result info it r hr) udi

theorem runFrom_busyInv (l : List (Nat × Event)) :
    ∀ m m2 : DevicesStateMonitor, BusyInvL m.devicesStates →
      runFrom m l = some m2 → BusyInvL m2.devicesStates := by
  induction l with
  | nil =>
      intro m m2 h hr
      simp only [runFrom, Option.some.injEq] at hr
      subst hr
      exact h
  | cons p rest ih =>
      intro m m2 h hr
      obtain ⟨now, e⟩ := p
      simp only [runFrom] at hr
      cases hs : stepAt now m e with
      | none => rw [hs] at hr; simp at hr
      | some r =>
          rw [hs] at hr
          exact ih r.1 m2 (stepAt_busyInv now m e r.1 r.2 hs h) hr

theorem runTimed_busyInv (evs : List (Nat × Event)) (m : DevicesStateMonitor)
    (h : runTimed evs = some m) : BusyInvL m.devicesStates :=
  runFrom_busyInv evs emptyMonitor m (by intro p hp; simp [emptyMonitor] at hp) h

/-- C1: after every completed operation of every event sequence run from
the fresh monitor, `isBusy(udi)` is true exactly when `state(udi)` is one
of Mounting, Unmounting, Checking, Repairing; untracked udis answer
`isBusy = false` and `state = NotPresent`. -/
theorem busy_iff_transitional (evs : List (Nat × Event))
    (m : DevicesStateMonitor) (h : runTimed evs = some m) (udi : String) :
    (isBusy m udi = true ↔
      (getState m udi = State.Mounting ∨ getState m udi = State.Unmounting
        ∨ getState m udi = State.Checking ∨ getState m udi = State.Repairing))
    ∧ (lookupDev m.devicesStates udi = none →
        isBusy m udi = false ∧ getState m udi = State.NotPresent) := by
  have hinv := runTimed_busyInv evs m h
  constructor
  · cases hl : lookupDev m.devicesStates udi with
    | none => simp [isBusy, getState, hl]
    | some it =>
        have hg := hinv (udi, it) (lookupDev_mem hl)
        simp only [isBusy, getState, hl]
        rw [goodInfo] at hg
        rw [hg]
        cases it.state <;> simp [State.isBusyState]
  · intro hl
    simp [isBusy, getState, hl]

/-- Witness for C1: the sequence register-then-checkRequested leaves "u"
busy in `Checking`, satisfying the invariant. -/
theorem busy_iff_transitional_w :
    runTimed [(0, Event.register devNone "u"),
      (1, Event.checkRequested "u")] = some mChecking
    ∧ ((isBusy mChecking "u" = true ↔
        (getState mChecking "u" = State.Mounting
          ∨ getState mChecking "u" = State.Unmounting
          ∨ getState mChecking "u" = State.Checking
          ∨ getState mChecking "u" = State.Repairing))
      ∧ (lookupDev mChecking.devicesStates "u" = none →
          isBusy mChecking "u" = false
          ∧ getState mChecking "u" = State.NotPresent)) :=
  ⟨by decide, busy_iff_transitional
    [(0, Event.register devNone "u"), (1, Event.checkRequested "u")]
    mChecking (by decide) "u"⟩
